import Mathlib

/-!
Verification development for the skeletron action-dispatch engine.

Shallow embedding of the two source files:
- `model.ts` (`StatelessModel`): suspension state machine (`suspendWithTimeout`,
  `suspend`, `wakeUp`, `isActive`) and the per-model handler registry
  (`addActionHandler`, `replaceActionHandler`).
- `kombo/main.ts` (`ActionDispatcher.registerReducer`): the side-effect dispatch
  helper with its nested-side-effect guard.

Modelling conventions:
- JS reference equality (`===`) on the opaque sync-data type `U` is modelled as
  equality on an arbitrary type with decidable equality: distinct references are
  distinct values.
- Thrown JS exceptions and `Error` values are modelled as `String` payloads via
  `Except String`.
- The rxjs `Subject` `wakeEvents$` is modelled by its event log: the list of
  actions pushed via `next` (field `nexts`) and an optional terminal event
  (field `ending`).
-/

namespace Skeletron

/-- An action as used by `model.ts`: a `name` (the dispatch key) and an
optional `error` value; `action.error` truthiness is `Option.isSome`. -/
structure Action where
  name : String
  error : Option String := none
deriving DecidableEq

/-- Terminal event of a suspension-episode output stream: the subject completed,
the subject errored, or the `timer(timeout)` in the pipeline fired first. -/
inductive EpisodeEnd where
  | completed : EpisodeEnd
  | errored : String → EpisodeEnd
  | timedOut : Nat → EpisodeEnd
deriving DecidableEq

/-- The timeout error message produced at model.ts line 296:
`new Error(` followed by the template `Model suspend timeout (` timeout `ms)`. -/
def timeoutMsg (t : Nat) : String :=
  "Model suspend timeout (" ++ toString t ++ "ms)"

/-- Semantics of the observable pipeline built in `suspendWithTimeout`
(model.ts lines 292-302) as a function of the subject's event log:
- `reduce((acc, action) => acc.concat(action), [])` emits the accumulated
  array only when the source completes, and `concatMap(actions => rxOf(...))`
  then flattens it in order, so on completion the output is exactly the
  buffered actions in the order they were pushed;
- an error on the subject is propagated by `reduce` before any accumulated
  value is emitted, so nothing buffered is delivered;
- `takeUntil(timer(timeout).pipe(concatMap(v => throwError(...))))` errors the
  output with the timeout message when the timer fires, again delivering
  nothing buffered. -/
def pipelineOutput (buffered : List Action) : EpisodeEnd → List Action × Option String
  | EpisodeEnd.completed => (buffered, none)
  | EpisodeEnd.errored e => ([], some e)
  | EpisodeEnd.timedOut t => ([], some (timeoutMsg t))

/-- The suspension-relevant state of a `StatelessModel<T, U>`:
`committed` is the current value of the `state$` behavior subject,
`wakeFn` and `syncData` are the nullable fields of the same names,
`nexts` and `ending` are the event log of the current `wakeEvents$` subject. -/
structure MState (T U : Type) where
  committed : T
  wakeFn : Option (Action → U → Except String (Option U))
  syncData : Option U
  nexts : List Action
  ending : Option EpisodeEnd

/-- `StatelessModel.isActive` (model.ts lines 353-355):
`typeof this.wakeFn !== 'function'`. -/
def isActive (m : MState T U) : Bool :=
  m.wakeFn.isNone

/-- `StatelessModel.suspendWithTimeout` (model.ts lines 285-303), state part
plus returned stream: if `wakeFn` is already set the state is untouched and the
returned observable is `throwError(new Error('The model is already suspended.'))`
(modelled as the `some` error in the second component); otherwise `wakeFn` and
`syncData` are stored, a fresh `wakeEvents$` subject is created (empty log) and
the returned observable is the pipeline over that subject (no error). -/
def suspendWithTimeout (m : MState T U) (timeout : Nat) (syncData : U)
    (wakeFn : Action → U → Except String (Option U)) :
    MState T U × Option String :=
  if m.wakeFn.isSome then
    (m, some "The model is already suspended.")
  else
    ({ m with wakeFn := some wakeFn, syncData := some syncData,
              nexts := [], ending := none },
     none)

/-- `StatelessModel.suspend` (model.ts lines 313-315): delegates to
`suspendWithTimeout` with timeout 0. -/
def suspend (m : MState T U) (syncData : U)
    (wakeFn : Action → U → Except String (Option U)) :
    MState T U × Option String :=
  suspendWithTimeout m 0 syncData wakeFn

/-- `StatelessModel.wakeUp` (model.ts lines 324-348). Guarded by
`typeof this.wakeFn === 'function' && this.syncData !== null`. Inside the
guard, `wakeFn(action, syncData)` is evaluated in a try block:
- result `null`: `wakeFn` is cleared; if `action.error` is truthy the subject
  errors with that value, otherwise the action is pushed and the subject
  completes;
- result not reference-equal to `syncData`: the action is pushed and
  `syncData` is updated (model stays suspended);
- result reference-equal to `syncData`: nothing happens;
- a thrown exception clears `wakeFn` and errors the subject with it. -/
def wakeUp [DecidableEq U] (m : MState T U) (a : Action) : MState T U :=
  match m.wakeFn, m.syncData with
  | some f, some sd =>
    match f a sd with
    | Except.ok none =>
      match a.error with
      | some e =>
        { m with wakeFn := none, ending := some (EpisodeEnd.errored e) }
      | none =>
        { m with wakeFn := none, nexts := m.nexts ++ [a],
                 ending := some EpisodeEnd.completed }
    | Except.ok (some v) =>
      if v = sd then m
      else { m with nexts := m.nexts ++ [a], syncData := some v }
    | Except.error e =>
      { m with wakeFn := none, ending := some (EpisodeEnd.errored e) }
  | _, _ => m

/-- A side-effect producer `ISideEffectHandler<T, Action>`: receives state and
action and may dispatch further actions (modelled as the dispatched list). The
registry stores these; the registry operations never invoke them. -/
def SEProducer (T : Type) : Type :=
  T → Action → List Action

/-- The per-model handler registry: the `actionMatch` and `sideEffectMatch`
objects of `StatelessModel`, keyed by action name; a missing key
(JS `undefined`) is `none`. -/
structure Registry (T : Type) where
  actionMatch : String → Option (T → Action → T)
  sideEffectMatch : String → Option (SEProducer T)

/-- Immer's `produce` applied to a pure recipe: in this embedding recipes are
already pure functions from state and action to the new state, so wrapping is
the identity. -/
def produce (recipe : T → Action → T) : T → Action → T :=
  recipe

/-- The side-effect half of `addActionHandler` (model.ts lines 168-175):
if a producer is supplied and one already exists for the name, throw; otherwise
install it. -/
def addSEProducer (reg : Registry T) (actionName : String)
    (seProducer : Option (SEProducer T)) : Registry T × Option String :=
  match seProducer with
  | some se =>
    if (reg.sideEffectMatch actionName).isNone then
      ({ reg with sideEffectMatch :=
           fun k => if k = actionName then some se else reg.sideEffectMatch k },
       none)
    else
      (reg, some ("Side-effect producer for [" ++ actionName ++ "] already defined."))
  | none => (reg, none)

/-- `StatelessModel.addActionHandler` (model.ts lines 157-177). The reducer
block runs first: a non-null reducer is installed (wrapped in `produce`) when
the name is free and throws otherwise; only if the reducer block did not throw
does the side-effect block run. A throw in the side-effect block leaves the
already-performed reducer installation in place (in-place object mutation).
The result pairs the (possibly partially updated) registry with the thrown
error, if any. -/
def addActionHandler (reg : Registry T) (actionName : String)
    (reducer : Option (T → Action → T)) (seProducer : Option (SEProducer T)) :
    Registry T × Option String :=
  match reducer with
  | some r =>
    if (reg.actionMatch actionName).isNone then
      addSEProducer
        { reg with actionMatch :=
            fun k => if k = actionName then some (produce r) else reg.actionMatch k }
        actionName seProducer
    else
      (reg, some ("Reducer for [" ++ actionName ++ "] already defined."))
  | none => addSEProducer reg actionName seProducer

/-- `StatelessModel.replaceActionHandler` (model.ts lines 217-221): delete both
entries for the name, then delegate to `addActionHandler`. -/
def replaceActionHandler (reg : Registry T) (actionName : String)
    (reducer : Option (T → Action → T)) (seProducer : Option (SEProducer T)) :
    Registry T × Option String :=
  addActionHandler
    { reg with
        actionMatch := fun k => if k = actionName then none else reg.actionMatch k,
        sideEffectMatch := fun k => if k = actionName then none else reg.sideEffectMatch k }
    actionName reducer seProducer

/-- `StatelessModel.reduce` (model.ts lines 98-104) with no debug hook
installed: apply the matching reducer, or return the state unchanged. -/
def Registry.reduce (reg : Registry T) (state : T) (a : Action) : T :=
  match reg.actionMatch a.name with
  | some r => r state a
  | none => state

end Skeletron

namespace Kombo

/-- An action as used by `kombo/main.ts`: `type` is the dispatch key; the
optional flags default to JS-falsy. The opaque `payload` is modelled as an
optional string. -/
structure DAction where
  type : String
  payload : Option String := none
  error : Bool := false
  isSideEffect : Bool := false
deriving DecidableEq

/-- The dispatch helper passed to side-effect handlers in
`ActionDispatcher.registerReducer` (main.ts lines 113-123): while processing
`current`, a call with `seAction` throws `'Nested side-effect not allowed'`
when `current.isSideEffect` is truthy, and otherwise dispatches a fresh action
carrying `seAction`'s type, payload and error with `isSideEffect` set to true. -/
def seDispatch (current seAction : DAction) : Except String DAction :=
  if current.isSideEffect then
    Except.error "Nested side-effect not allowed"
  else
    Except.ok { type := seAction.type, payload := seAction.payload,
                error := seAction.error, isSideEffect := true }

end Kombo

namespace Skeletron

/-! Concrete fixtures used by the witness theorems. -/

/-- A plain action with no error value. -/
def actA : Action := { name := "A" }

/-- An action carrying a truthy error value. -/
def actErr : Action := { name := "E", error := some "boom" }

/-- A wake predicate returning the sync data it received (reference-equal). -/
def wfSame : Action → Nat → Except String (Option Nat) :=
  fun _ s => Except.ok (some s)

/-- A wake predicate returning a fresh sync value distinct from the current one. -/
def wfInc : Action → Nat → Except String (Option Nat) :=
  fun _ s => Except.ok (some (s + 1))

/-- A wake predicate returning null (wake the model). -/
def wfNull : Action → Nat → Except String (Option Nat) :=
  fun _ _ => Except.ok none

/-- A wake predicate that throws. -/
def wfThrow : Action → Nat → Except String (Option Nat) :=
  fun _ _ => Except.error "broken"

/-- A suspended model holding the given wake predicate and sync data 0. -/
def mSusp (wf : Action → Nat → Except String (Option Nat)) : MState Nat Nat :=
  { committed := 0, wakeFn := some wf, syncData := some 0, nexts := [], ending := none }

/-- A model that is not suspended. -/
def mActive : MState Nat Nat :=
  { committed := 0, wakeFn := none, syncData := none, nexts := [], ending := none }

/-- C4: if the wake predicate returns the very same reference as the current
sync data, the whole model state is unchanged: it stays suspended, sync data is
untouched, the action is never pushed to the output subject, and the committed
state is unchanged. -/
theorem c4_same_sync_swallowed (T U : Type) [DecidableEq U] (m : MState T U)
    (f : Action → U → Except String (Option U)) (sd : U) (a : Action)
    (hw : m.wakeFn = some f) (hs : m.syncData = some sd)
    (h : f a sd = Except.ok (some sd)) :
    wakeUp m a = m := by
  simp [wakeUp, hw, hs, h]

theorem c4_same_sync_swallowed_witness :
    wakeUp (mSusp wfSame) actA = mSusp wfSame :=
  c4_same_sync_swallowed Nat Nat (mSusp wfSame) wfSame 0 actA rfl rfl rfl

/-- C5: if the wake predicate returns a non-null value that is not
reference-equal to the current sync data, the model stays suspended
(`isActive` is false, `wakeFn` untouched), the stored sync data becomes the
new value, and the action is pushed onto the output subject exactly once. -/
theorem c5_new_sync_forwarded (T U : Type) [DecidableEq U] (m : MState T U)
    (f : Action → U → Except String (Option U)) (sd v : U) (a : Action)
    (hw : m.wakeFn = some f) (hs : m.syncData = some sd)
    (h : f a sd = Except.ok (some v)) (hne : v ≠ sd) :
    wakeUp m a = { m with nexts := m.nexts ++ [a], syncData := some v } ∧
    isActive (wakeUp m a) = false := by
  have hstep : wakeUp m a = { m with nexts := m.nexts ++ [a], syncData := some v } := by
    simp [wakeUp, hw, hs, h, hne]
  exact ⟨hstep, by simp [hstep, isActive, hw]⟩

theorem c5_new_sync_forwarded_witness :
    wakeUp (mSusp wfInc) actA =
      { mSusp wfInc with nexts := (mSusp wfInc).nexts ++ [actA], syncData := some 1 } ∧
    isActive (wakeUp (mSusp wfInc) actA) = false :=
  c5_new_sync_forwarded Nat Nat (mSusp wfInc) wfInc 0 1 actA rfl rfl rfl (by decide)

/-- C6: if the wake predicate returns null, the model transitions back to
active (`isActive` becomes true); when the action carries a truthy error value
the output subject errors with it (so the pipeline delivers only the error),
and otherwise the action is pushed once and the subject completes, so the
pipeline delivers the buffered actions followed by this action exactly once. -/
theorem c6_null_wakes (T U : Type) [DecidableEq U] (m : MState T U)
    (f : Action → U → Except String (Option U)) (sd : U) (a : Action)
    (hw : m.wakeFn = some f) (hs : m.syncData = some sd)
    (h : f a sd = Except.ok none) :
    isActive (wakeUp m a) = true ∧
    (∀ e, a.error = some e →
      wakeUp m a = { m with wakeFn := none, ending := some (EpisodeEnd.errored e) } ∧
      pipelineOutput (wakeUp m a).nexts (EpisodeEnd.errored e) = ([], some e)) ∧
    (a.error = none →
      wakeUp m a = { m with wakeFn := none, nexts := m.nexts ++ [a],
                            ending := some EpisodeEnd.completed } ∧
      pipelineOutput (wakeUp m a).nexts EpisodeEnd.completed = (m.nexts ++ [a], none)) := by
  refine ⟨?_, ?_, ?_⟩
  · cases he : a.error with
    | some e => simp [wakeUp, hw, hs, h, he, isActive]
    | none => simp [wakeUp, hw, hs, h, he, isActive]
  · intro e he
    refine ⟨by simp [wakeUp, hw, hs, h, he], by simp [pipelineOutput]⟩
  · intro he
    have hstep : wakeUp m a = { m with wakeFn := none, nexts := m.nexts ++ [a],
                                       ending := some EpisodeEnd.completed } := by
      simp [wakeUp, hw, hs, h, he]
    exact ⟨hstep, by simp [hstep, pipelineOutput]⟩

theorem c6_null_wakes_witness :
    isActive (wakeUp (mSusp wfNull) actA) = true ∧
    wakeUp (mSusp wfNull) actA =
      { mSusp wfNull with wakeFn := none, nexts := (mSusp wfNull).nexts ++ [actA],
                          ending := some EpisodeEnd.completed } ∧
    wakeUp (mSusp wfNull) actErr =
      { mSusp wfNull with wakeFn := none,
                          ending := some (EpisodeEnd.errored "boom") } := by
  refine ⟨(c6_null_wakes Nat Nat (mSusp wfNull) wfNull 0 actA rfl rfl rfl).1, ?_, ?_⟩
  · exact ((c6_null_wakes Nat Nat (mSusp wfNull) wfNull 0 actA rfl rfl rfl).2.2 rfl).1
  · exact ((c6_null_wakes Nat Nat (mSusp wfNull) wfNull 0 actErr rfl rfl rfl).2.1 "boom" rfl).1

/-- C7: suspending an already-suspended model (its wake predicate still set)
leaves the model state completely unchanged — in particular the first
suspension's wake predicate and sync data are not replaced — and the returned
stream is the already-suspended error; this holds for `suspendWithTimeout` and
for `suspend`. -/
theorem c7_double_suspend_fails (T U : Type) (m : MState T U)
    (h : m.wakeFn.isSome = true) (t : Nat) (sd : U)
    (wf : Action → U → Except String (Option U)) :
    suspendWithTimeout m t sd wf = (m, some "The model is already suspended.") ∧
    suspend m sd wf = (m, some "The model is already suspended.") := by
  constructor <;> simp [suspendWithTimeout, suspend, h]

theorem c7_double_suspend_fails_witness :
    suspendWithTimeout (mSusp wfSame) 5 1 wfInc =
      (mSusp wfSame, some "The model is already suspended.") ∧
    suspend (mSusp wfSame) 1 wfInc =
      (mSusp wfSame, some "The model is already suspended.") :=
  c7_double_suspend_fails Nat Nat (mSusp wfSame) rfl 5 1 wfInc

/-- C8: if the wake predicate throws, the wake predicate is cleared (the model
is active again, `isActive` true) and the output subject errors with the thrown
value, so the pipeline delivers only that error. -/
theorem c8_predicate_exception (T U : Type) [DecidableEq U] (m : MState T U)
    (f : Action → U → Except String (Option U)) (sd : U) (a : Action) (e : String)
    (hw : m.wakeFn = some f) (hs : m.syncData = some sd)
    (h : f a sd = Except.error e) :
    wakeUp m a = { m with wakeFn := none, ending := some (EpisodeEnd.errored e) } ∧
    isActive (wakeUp m a) = true ∧
    pipelineOutput (wakeUp m a).nexts (EpisodeEnd.errored e) = ([], some e) := by
  have hstep : wakeUp m a =
      { m with wakeFn := none, ending := some (EpisodeEnd.errored e) } := by
    simp [wakeUp, hw, hs, h]
  exact ⟨hstep, by simp [hstep, isActive], by simp [pipelineOutput]⟩

/-- C9: the output stream delivers nothing while the episode is open. A
`wakeUp` call either leaves the subject's buffer unchanged or appends the
delivered action at the end (order of forwarding preserved); the pipeline then
delivers exactly the buffered actions, in order, when the subject completes
(model woke up), and delivers nothing but the error when the subject errors or
the timeout fires. -/
theorem c9_buffered_delivery (T U : Type) [DecidableEq U] (m : MState T U)
    (a : Action) (buffered : List Action) (e : String) (t : Nat) :
    ((wakeUp m a).nexts = m.nexts ∨ (wakeUp m a).nexts = m.nexts ++ [a]) ∧
    pipelineOutput buffered EpisodeEnd.completed = (buffered, none) ∧
    pipelineOutput buffered (EpisodeEnd.errored e) = ([], some e) ∧
    pipelineOutput buffered (EpisodeEnd.timedOut t) = ([], some (timeoutMsg t)) := by
  refine ⟨?_, rfl, rfl, rfl⟩
  unfold wakeUp
  cases hw : m.wakeFn with
  | none => simp
  | some f =>
    cases hs : m.syncData with
    | none => simp
    | some sd =>
      cases h : f a sd with
      | error e' => simp [h]
      | ok v =>
        cases v with
        | none =>
          cases he : a.error with
          | some e' => simp [h, he]
          | none => simp [h, he]
        | some v' =>
          by_cases hv : v' = sd <;> simp [h, hv]

theorem c9_buffered_delivery_witness :
    ((wakeUp (mSusp wfInc) actA).nexts = (mSusp wfInc).nexts ∨
      (wakeUp (mSusp wfInc) actA).nexts = (mSusp wfInc).nexts ++ [actA]) ∧
    pipelineOutput [actA] EpisodeEnd.completed = ([actA], none) ∧
    pipelineOutput [actA] (EpisodeEnd.errored "boom") = ([], some "boom") ∧
    pipelineOutput [actA] (EpisodeEnd.timedOut 50) = ([], some (timeoutMsg 50)) :=
  c9_buffered_delivery Nat Nat (mSusp wfInc) actA [actA] "boom" 50

/-- C1 counterexample: suspend a fresh model with timeout 50 and a predicate
that always produces new sync data. The suspension succeeds, the pipeline
delivers the timeout error when the timer fires — yet `isActive` is still
false afterwards (the claim says true) and a later action is still evaluated
against the stored wake predicate and sync data: it updates the sync data
from 0 to 1. -/
theorem c1_timeout_counterexample :
    (suspendWithTimeout mActive 50 0 wfInc).2 = none ∧
    pipelineOutput (suspendWithTimeout mActive 50 0 wfInc).1.nexts
      (EpisodeEnd.timedOut 50) = ([], some "Model suspend timeout (50ms)") ∧
    isActive (suspendWithTimeout mActive 50 0 wfInc).1 = false ∧
    (wakeUp (suspendWithTimeout mActive 50 0 wfInc).1 actA).syncData = some 1 := by
  exact ⟨rfl, rfl, rfl, rfl⟩

/-- C1 amended: when a model is suspended via `suspendWithTimeout` with
timeout t > 0 and no action resolves the suspension, the pipeline delivers the
timeout error — but nothing resets the model's suspension fields: the model is
NOT back in the active state (`isActive` is false), and the wake predicate and
sync data remain stored exactly as supplied, so later actions are still
evaluated against them. -/
theorem c1_timeout_leaves_suspended (T U : Type) (m : MState T U)
    (h : m.wakeFn = none) (t : Nat) (ht : 0 < t) (sd : U)
    (wf : Action → U → Except String (Option U)) :
    (suspendWithTimeout m t sd wf).2 = none ∧
    isActive (suspendWithTimeout m t sd wf).1 = false ∧
    (suspendWithTimeout m t sd wf).1.wakeFn = some wf ∧
    (suspendWithTimeout m t sd wf).1.syncData = some sd ∧
    pipelineOutput (suspendWithTimeout m t sd wf).1.nexts (EpisodeEnd.timedOut t) =
      ([], some (timeoutMsg t)) := by
  refine ⟨?_, ?_, ?_, ?_, rfl⟩ <;> simp [suspendWithTimeout, isActive, h]

theorem c1_timeout_leaves_suspended_witness :
    (suspendWithTimeout mActive 50 0 wfInc).2 = none ∧
    isActive (suspendWithTimeout mActive 50 0 wfInc).1 = false ∧
    (suspendWithTimeout mActive 50 0 wfInc).1.wakeFn = some wfInc ∧
    (suspendWithTimeout mActive 50 0 wfInc).1.syncData = some 0 ∧
    pipelineOutput (suspendWithTimeout mActive 50 0 wfInc).1.nexts
      (EpisodeEnd.timedOut 50) = ([], some (timeoutMsg 50)) :=
  c1_timeout_leaves_suspended Nat Nat mActive rfl 50 (by decide) 0 wfInc

theorem c8_predicate_exception_witness :
    wakeUp (mSusp wfThrow) actA =
      { mSusp wfThrow with wakeFn := none,
                           ending := some (EpisodeEnd.errored "broken") } ∧
    isActive (wakeUp (mSusp wfThrow) actA) = true ∧
    pipelineOutput (wakeUp (mSusp wfThrow) actA).nexts
      (EpisodeEnd.errored "broken") = ([], some "broken") :=
  c8_predicate_exception Nat Nat (mSusp wfThrow) wfThrow 0 actA "broken" rfl rfl rfl

/-! Registry fixtures for the witness theorems. -/

/-- An existing reducer entry. -/
def rOld : Nat → Action → Nat := fun s _ => s

/-- A freshly supplied reducer. -/
def rNew : Nat → Action → Nat := fun s _ => s + 1

/-- An existing side-effect producer entry. -/
def seOld : SEProducer Nat := fun _ _ => []

/-- A freshly supplied side-effect producer. -/
def seNew : SEProducer Nat := fun _ a => [a]

/-- A registry holding both a reducer and a side-effect producer for kind A. -/
def regBoth : Registry Nat :=
  { actionMatch := fun k => if k = "A" then some rOld else none,
    sideEffectMatch := fun k => if k = "A" then some seOld else none }

/-- A registry holding only a side-effect producer for kind A (no reducer). -/
def regSEOnly : Registry Nat :=
  { actionMatch := fun _ => none,
    sideEffectMatch := fun k => if k = "A" then some seOld else none }

/-- C2: registering a second reducer for a kind that already has one via
`addActionHandler` throws, as does registering a second side-effect producer
for a kind that already has one; `replaceActionHandler` for the kind always
succeeds, and afterwards the registry's entries for that kind are exactly the
newly supplied reducer (wrapped in `produce`) and side-effect producer, the
prior handlers being gone. -/
theorem c2_conflict_and_replace (T : Type) (reg : Registry T) (kind : String)
    (r : T → Action → T) (red : Option (T → Action → T))
    (se : SEProducer T) (sep : Option (SEProducer T)) :
    ((reg.actionMatch kind).isSome = true →
      (addActionHandler reg kind (some r) sep).2.isSome = true) ∧
    ((reg.sideEffectMatch kind).isSome = true →
      (addActionHandler reg kind red (some se)).2.isSome = true) ∧
    ((replaceActionHandler reg kind red sep).2 = none ∧
      (replaceActionHandler reg kind red sep).1.actionMatch kind = Option.map produce red ∧
      (replaceActionHandler reg kind red sep).1.sideEffectMatch kind = sep) := by
  refine ⟨?_, ?_, ?_⟩
  · intro h
    obtain ⟨x, hx⟩ := Option.isSome_iff_exists.mp h
    simp [addActionHandler, hx]
  · intro h
    obtain ⟨x, hx⟩ := Option.isSome_iff_exists.mp h
    cases red with
    | none => simp [addActionHandler, addSEProducer, hx]
    | some r' =>
      cases hA : reg.actionMatch kind with
      | none => simp [addActionHandler, addSEProducer, hA, hx]
      | some rr => simp [addActionHandler, addSEProducer, hA, hx]
  · cases red with
    | none =>
      cases sep with
      | none => simp [replaceActionHandler, addActionHandler, addSEProducer]
      | some se' => simp [replaceActionHandler, addActionHandler, addSEProducer]
    | some r' =>
      cases sep with
      | none => simp [replaceActionHandler, addActionHandler, addSEProducer]
      | some se' => simp [replaceActionHandler, addActionHandler, addSEProducer]

theorem c2_conflict_and_replace_witness :
    (addActionHandler regBoth "A" (some rNew) none).2.isSome = true ∧
    (addActionHandler regBoth "A" none (some seNew)).2.isSome = true ∧
    (replaceActionHandler regBoth "A" (some rNew) (some seNew)).2 = none ∧
    (replaceActionHandler regBoth "A" (some rNew) (some seNew)).1.actionMatch "A" =
      some (produce rNew) ∧
    (replaceActionHandler regBoth "A" (some rNew) (some seNew)).1.sideEffectMatch "A" =
      some seNew := by
  have h1 := (c2_conflict_and_replace Nat regBoth "A" rNew (some rNew) seNew none).1 rfl
  have h2 := (c2_conflict_and_replace Nat regBoth "A" rNew none seNew (some seNew)).2.1 rfl
  have h3 := (c2_conflict_and_replace Nat regBoth "A" rNew (some rNew) seNew (some seNew)).2.2
  exact ⟨h1, h2, h3.1, h3.2.1, h3.2.2⟩

/-- C10: `addActionHandler` is not atomic on conflict. Called with a reducer
for a kind with no reducer yet, together with a side-effect producer for that
kind which already has one, it throws the duplicate-side-effect error — yet
the new reducer has already been installed and remains in the returned
registry. -/
theorem c10_nonatomic_add (T : Type) (reg : Registry T) (kind : String)
    (r : T → Action → T) (se : SEProducer T)
    (hr : reg.actionMatch kind = none)
    (hse : (reg.sideEffectMatch kind).isSome = true) :
    (addActionHandler reg kind (some r) (some se)).2 =
      some ("Side-effect producer for [" ++ kind ++ "] already defined.") ∧
    (addActionHandler reg kind (some r) (some se)).1.actionMatch kind =
      some (produce r) := by
  obtain ⟨x, hx⟩ := Option.isSome_iff_exists.mp hse
  constructor <;> simp [addActionHandler, addSEProducer, hr, hx]

theorem c10_nonatomic_add_witness :
    (addActionHandler regSEOnly "A" (some rNew) (some seNew)).2 =
      some ("Side-effect producer for [" ++ "A" ++ "] already defined.") ∧
    (addActionHandler regSEOnly "A" (some rNew) (some seNew)).1.actionMatch "A" =
      some (produce rNew) :=
  c10_nonatomic_add Nat regSEOnly "A" rNew seNew rfl rfl

end Skeletron

namespace Kombo

/-- C3: while the action currently being processed has `isSideEffect` true,
any call of the side-effect dispatch helper throws the nested-side-effect
error instead of dispatching; when the current action's `isSideEffect` is
false, the helper dispatches the new action with `isSideEffect` set to true
(keeping its type, payload and error). -/
theorem c3_nested_side_effect_guard (current seAction : DAction) :
    (current.isSideEffect = true →
      seDispatch current seAction = Except.error "Nested side-effect not allowed") ∧
    (current.isSideEffect = false →
      seDispatch current seAction = Except.ok
        { type := seAction.type, payload := seAction.payload,
          error := seAction.error, isSideEffect := true }) := by
  constructor <;> intro h <;> simp [seDispatch, h]

/-- A current action already tagged as a side effect. -/
def dActSE : DAction := { type := "X", isSideEffect := true }

/-- A current action not tagged as a side effect. -/
def dActUI : DAction := { type := "Y" }

/-- A freshly constructed action handed to the dispatch helper. -/
def dActNew : DAction := { type := "Z" }

theorem c3_nested_side_effect_guard_witness :
    seDispatch dActSE dActNew = Except.error "Nested side-effect not allowed" ∧
    seDispatch dActUI dActNew = Except.ok
      { type := "Z", payload := none, error := false, isSideEffect := true } :=
  ⟨(c3_nested_side_effect_guard dActSE dActNew).1 rfl,
   (c3_nested_side_effect_guard dActUI dActNew).2 rfl⟩

end Kombo
